import Mathlib

/-!
Verification development for the JSTP protocol core (metarhia-jstp 0.7.0-pre).

Part 1 embeds the record codec of `lib/record-serialization` (the file
`src/unnamed/part_001` of the repository): the value space, the serializer
`createSerializer` / `parser.stringify`, and a parser for the literal subset
of the record grammar.  Part 2 embeds the connection state machine of
`src/lib/connection.js`.  All definitions are executable; machine integers of
the protocol (packet ids) are modelled as `Int` (JS numbers stay in the safe
integer range in this code path).
-/

namespace Jstp

/-- Character constants used to build wire text without special characters in
string literals: single quote (39), backslash (92), and the object braces
(123, 125). -/
def squote : Char := Char.ofNat 39

/-- Backslash character (code 92). -/
def bslash : Char := Char.ofNat 92

/-- Opening object brace (code 123). -/
def lbrace : Char := Char.ofNat 123

/-- Closing object brace (code 125). -/
def rbrace : Char := Char.ofNat 125

/-- Value space of the JSTP record format as handled by `createSerializer`:
JS `null`, `undefined`, booleans, numbers (restricted to the integers, the
only numbers this code path produces), strings, arrays, plain objects as
ordered field lists, and function values (only their identity matters to the
record serializer, which renders every function as `undefined`).  `Date`
values are not needed by any claim and are omitted. -/
inductive JSValue where
  | vnull
  | vundef
  | vbool (b : Bool)
  | vint (n : Int)
  | vstr (s : String)
  | varr (elems : List JSValue)
  | vobj (fields : List (String × JSValue))
  | vfunc (id : Nat)

/-- Embeds `s.replace(/'/g, "\\'")` from the `string` serializer of
`createSerializer`: every single quote is replaced by backslash-quote;
no other character (in particular not the backslash) is touched. -/
def escQuote : List Char → List Char
  | [] => []
  | c :: cs => if c = squote then bslash :: squote :: escQuote cs else c :: escQuote cs

mutual

/-- Embeds the inner `serialize(object, index, array)` function of
`createSerializer` in `parser.stringify` (record mode): type dispatch on the
value; `null` and `undefined` both reach the `undefined` handler, which
renders the empty string inside an array and the text `undefined` elsewhere;
functions render as `undefined` (the record-mode additional type); strings are
single-quoted with only single quotes escaped; arrays map the serializer over
the elements (array context true) and join with commas; objects keep fields
whose rendering is not the text `undefined`, as bare `key:value` pairs joined
with commas. -/
def serialize (v : JSValue) (inArr : Bool) : String :=
  match v with
  | .vnull => if inArr then "" else "undefined"
  | .vundef => if inArr then "" else "undefined"
  | .vbool b => if b then "true" else "false"
  | .vint n => toString n
  | .vstr s => String.mk ([squote] ++ escQuote s.data ++ [squote])
  | .vfunc _ => "undefined"
  | .varr xs => "[" ++ String.intercalate "," (serializeElems xs) ++ "]"
  | .vobj fs =>
      String.mk [lbrace] ++ String.intercalate "," (serializeFields fs) ++ String.mk [rbrace]

/-- Embeds `a.map(serialize)` over array elements (array context). -/
def serializeElems : List JSValue → List String
  | [] => []
  | x :: xs => serialize x true :: serializeElems xs

/-- Embeds the `object` handler's field loop: serialize each field value and
skip the field when its rendering equals the text `undefined`. -/
def serializeFields : List (String × JSValue) → List String
  | [] => []
  | f :: fs =>
      let r := serialize f.2 false
      if r = "undefined" then serializeFields fs
      else (f.1 ++ ":" ++ r) :: serializeFields fs

end

/-- Embeds `parser.stringify(obj)`: the record-mode serializer applied at top
level (no array context). -/
def stringify (v : JSValue) : String := serialize v false

/-- Escape interpretation of a single-quoted string literal: `n`, `t`, `r`
denote the control characters; every other escaped character (backslash,
quote, and any unknown escape, as in JS string literal semantics) denotes
itself. -/
def unescapeChar (c : Char) : Char :=
  if c = 'n' then Char.ofNat 10
  else if c = 't' then Char.ofNat 9
  else if c = 'r' then Char.ofNat 13
  else c

/-- Body of a single-quoted string literal, after the opening quote: returns
the decoded content and the remaining input, or `none` when the literal is
unterminated (end of input before a closing quote). -/
def parseStrBody : List Char → Option (List Char × List Char)
  | [] => none
  | c :: cs =>
      if c = squote then some ([], cs)
      else if c = bslash then
        match cs with
        | [] => none
        | e :: cs2 => (parseStrBody cs2).map (fun p => (unescapeChar e :: p.1, p.2))
      else (parseStrBody cs).map (fun p => (c :: p.1, p.2))

/-- Decimal digit accumulator for integer literals; fails on a non-digit. -/
def parseDigitsAux : List Char → Nat → Option Nat
  | [], acc => some acc
  | c :: cs, acc =>
      if c.isDigit then parseDigitsAux cs (acc * 10 + (c.toNat - 48)) else none

/-- Optionally signed decimal integer literal consuming the whole input. -/
def parseIntAll (cs : List Char) : Option Int :=
  match cs with
  | [] => none
  | c :: rest =>
      if c = '-' then
        match rest with
        | [] => none
        | _ => (parseDigitsAux rest 0).map (fun n => -(n : Int))
      else if c.isDigit then (parseDigitsAux cs 0).map (fun n => (n : Int))
      else none

/-- Modelled from the spec: the repository's `parser.parse` evaluates the text
in a VM sandbox (`vm.runInNewContext` over `(str)`), so no real parser exists
under src.  This definition follows the grammar of spec section 4.1 restricted to
the literal subset that the serializer emits at the leaves: the literals
`null`, `undefined`, `true`, `false`, optionally signed decimal integers, and
single-quoted strings with backslash escapes.  The whole input must be
consumed; malformed input (in particular an unterminated string literal)
yields `none`, the spec's ParseError. -/
def parseRecord (s : String) : Option JSValue :=
  let cs := s.data
  if cs = "null".data then some .vnull
  else if cs = "undefined".data then some .vundef
  else if cs = "true".data then some (.vbool true)
  else if cs = "false".data then some (.vbool false)
  else
    match cs with
    | [] => none
    | c :: rest =>
        if c = squote then
          match parseStrBody rest with
          | some (content, []) => some (.vstr (String.mk content))
          | _ => none
        else (parseIntAll cs).map .vint

/-!
Part 2: the connection state machine of `src/lib/connection.js`.

The transport, the event-emitter and the timer API are external collaborators:
everything the connection hands to them (sent packets, `transport.end`,
emitted events, invocations of user callbacks) is recorded in an output
trace, and incoming packets drive a step function `processPacket`, mirroring
the single-threaded processing model (one packet processed atomically).
The asynchronous `server.startSession` of the handshake path is modelled as a
synchronous function supplied by the environment, and application method
handlers as an environment function, since both are pluggable user code.
The heartbeat timer (`startHeartbeat` / `stopHeartbeat`) is real time and is
not modelled; no claim below depends on it.
-/

/-- Wire error model of `lib/errors`: the named canonical errors used by the
connection, and `remote` wrapping an error sequence received from the wire
(`RemoteError.fromJstpArray`). -/
inductive JErr where
  | appNotFound
  | authFailed
  | interfaceNotFound
  | methodNotFound
  | notAServer
  | invalidSignature
  | internalApiError
  | remote (arr : JSValue)

/-- Stable numeric codes of the canonical errors (spec section 4.2). -/
def errCode : JErr → Int
  | .appNotFound => 1
  | .authFailed => 2
  | .interfaceNotFound => 3
  | .methodNotFound => 4
  | .notAServer => 5
  | .invalidSignature => 6
  | .internalApiError => 7
  | .remote _ => 0

/-- Embeds `errors.RemoteError.getJstpArrayFor`: the wire form of an error is
the sequence `[code]`; an error that arrived from the wire keeps its original
sequence. -/
def errJstpArray : JErr → JSValue
  | .remote arr => arr
  | e => .varr [.vint (errCode e)]

/-- Argument with which a registered continuation is invoked: an error
(`callback(err)`) or a result list (`callback(null, ...args)`). -/
inductive CbResult where
  | err (e : JErr)
  | res (args : List JSValue)

/-- Client-side proxy of a remote interface (`lib/remote-proxy`).  `nonce`
models JS object identity: each `new RemoteProxy(...)` yields a fresh nonce,
so two proxies are the same object precisely when their nonces agree. -/
structure RemoteProxy where
  nonce : Nat
  interfaceName : String
  methods : List JSValue

/-- The continuations that the connection registers in `this._callbacks`:
`emitError` is the constructor's `_emitError` default of `callMethod`;
`doNothing` is `common.doNothing`, the default of `ping`; `user n` is a
user-supplied callback identified by `n`; `handshakeK` is the closure built
by `Connection.prototype.handshake` (capturing login, password and the user
callback); `inspectK` is the closure built by
`Connection.prototype.inspectInterface` (capturing the interface name and the
user callback). -/
inductive Continuation where
  | emitError
  | doNothing
  | user (id : Nat)
  | handshakeK (login : Option String) (password : Option String) (userCb : Option Nat)
  | inspectK (interfaceName : String) (userCb : Option Nat)

/-- Argument delivered to a user-level callback. -/
inductive UserCbArg where
  | err (e : JErr)
  | vals (args : List JSValue)
  | proxyResult (p : RemoteProxy)

/-- A JSTP packet of the shape this connection produces and consumes: first
key `kind` with header value `[pid]` or `[pid, target]`, and an optional
second key `verb` with its value. -/
structure Packet where
  kind : String
  pid : Int
  target : Option String
  verb : Option (String × JSValue)

/-- An incoming parsed packet: the empty mapping (heartbeat) or a packet. -/
inductive InPacket where
  | empty
  | pkt (p : Packet)

/-- Everything the connection emits towards its collaborators, in order: sent
packets, `transport.end` (with an optional final packet), the events of the
connection and its server, invocations of registry continuations and of
user-level callbacks, and `calledUndefined` marking the JS TypeError of
invoking a missing callback. -/
inductive Output where
  | sent (p : Packet)
  | ended (finalPacket : Option Packet)
  | packetRejected (p : Packet)
  | closeEvent
  | disconnectEvent
  | errorEvent (e : JErr)
  | clientEvent (sessionId : JSValue)
  | connectEvent
  | eventEvent (interfaceName : Option String) (eventName : Option String) (args : JSValue)
  | proxyEvent (nonce : Nat) (eventName : Option String) (args : JSValue)
  | userCb (id : Nat) (arg : UserCbArg)
  | invoked (k : Continuation) (r : CbResult)
  | calledUndefined

/-- State of a `Connection`: role flag, packet id counter and delta, the
pending-callback registry `_callbacks` (as an association list keyed by
packet id), the handshake flag, identity fields, the attached application
(by name), the client's own application (`this.client.application`), the
remote proxy cache, and the nonce supply for proxy identity. -/
structure ConnState where
  isServer : Bool
  nextPacketId : Int
  packetIdDelta : Int
  callbacks : List (Int × Continuation)
  handshakeDone : Bool
  username : Option String
  sessionId : Option JSValue
  application : Option String
  clientApplication : Option String
  remoteProxies : List (String × RemoteProxy)
  proxyNonce : Nat

/-- Lookup in the callback registry (`this._callbacks[packetId]`). -/
def cbGet (cbs : List (Int × Continuation)) (i : Int) : Option Continuation :=
  match cbs.find? (fun e => e.1 == i) with
  | some e => some e.2
  | none => none

/-- Assignment `this._callbacks[packetId] = k` (JS object keys are unique, so
any previous binding of the id is overwritten). -/
def cbSet (cbs : List (Int × Continuation)) (i : Int) (k : Continuation) :
    List (Int × Continuation) :=
  (i, k) :: cbs.filter (fun e => e.1 != i)

/-- Deletion `delete this._callbacks[packetId]`. -/
def cbDel (cbs : List (Int × Continuation)) (i : Int) : List (Int × Continuation) :=
  cbs.filter (fun e => e.1 != i)

/-- Embeds the `Connection` constructor: packet id counter at 0, delta -1 for
a server-role connection and +1 for a client-role one, empty registry, no
handshake done, no identity, no attached application, empty proxy cache.
The rule that exactly one of server and client context must be present is
modelled by the single role flag; `clientApp` is the application carried by
the client context (for a server-role connection it is absent). -/
def mkConnection (isServer : Bool) (clientApp : Option String) : ConnState :=
  { isServer := isServer
  , nextPacketId := 0
  , packetIdDelta := if isServer then -1 else 1
  , callbacks := []
  , handshakeDone := false
  , username := none
  , sessionId := none
  , application := none
  , clientApplication := clientApp
  , remoteProxies := []
  , proxyNonce := 0 }

/-- Embeds `Connection.prototype.createPacket`: the packet carries the current
`_nextPacketId` (and the target when present, and the verb with its arguments
when present), and the counter advances by `_packetIdDelta`. -/
def createPacket (st : ConnState) (kind : String) (target : Option String)
    (verb : Option (String × JSValue)) : Packet × ConnState :=
  (⟨kind, st.nextPacketId, target, verb⟩,
   { st with nextPacketId := st.nextPacketId + st.packetIdDelta })

/-- Environment of a connection: the server's application registry (by name),
the authentication path `server.startSession` (returning `none` on an
authentication error, or the username and session id), the outcome a method
handler reports through its callback, and `application.getMethods`.  These
are the pluggable collaborators of the connection. -/
structure ServerEnv where
  applications : List String
  startSession : String → String → JSValue → Option (Option String × JSValue)
  callMethodR : Option String → Option String → String → JSValue → CbResult
  getMethods : Option String → Option String → Option (List String)

/-- Embeds the invocation of a registered continuation, i.e. the bodies of
the closures stored in `this._callbacks` (see `Continuation`): `_emitError`
emits an error event only when an error is present; `doNothing` does nothing;
a user callback is handed the argument; the handshake closure sets
`this.username` (when called with login and password and no error) and
`this.sessionId`, then calls the user callback; the inspect closure on
success constructs a fresh `RemoteProxy` over the returned method list and
stores it in `this.remoteProxies[interfaceName]`, then hands it to the user
callback, and on error hands the error to the user callback or emits it. -/
def invokeCont (st : ConnState) (k : Continuation) (r : CbResult) :
    ConnState × List Output :=
  match k with
  | .emitError =>
      match r with
      | .err e => (st, [.errorEvent e])
      | .res _ => (st, [])
  | .doNothing => (st, [])
  | .user n =>
      match r with
      | .err e => (st, [.userCb n (.err e)])
      | .res args => (st, [.userCb n (.vals args)])
  | .handshakeK login password userCb =>
      match r with
      | .res args =>
          let sess := args.headD .vundef
          let st1 := { st with
            username := if login.isSome && password.isSome then login else st.username,
            sessionId := some sess }
          (st1, match userCb with
                | some n => [.userCb n (.vals [sess])]
                | none => [])
      | .err e =>
          let st1 := { st with sessionId := none }
          (st1, match userCb with
                | some n => [.userCb n (.err e)]
                | none => [])
  | .inspectK ifc userCb =>
      match r with
      | .err e =>
          (st, match userCb with
               | some n => [.userCb n (.err e)]
               | none => [.errorEvent e])
      | .res methods =>
          let proxy : RemoteProxy := ⟨st.proxyNonce, ifc, methods⟩
          let st1 := { st with
            remoteProxies := (ifc, proxy) :: st.remoteProxies.filter (fun e => e.1 != ifc),
            proxyNonce := st.proxyNonce + 1 }
          (st1, match userCb with
                | some n => [.userCb n (.proxyResult proxy)]
                | none => [])

/-- Invocation of a registry continuation, with the one-shot delivery recorded
in the trace as an `invoked` output before the continuation's own effects. -/
def invokeWithTrace (st : ConnState) (k : Continuation) (r : CbResult) :
    ConnState × List Output :=
  let r1 := invokeCont st k r
  (r1.1, .invoked k r :: r1.2)

/-- Embeds `Connection.prototype._rejectPacket`: emit `packetRejected`, and
when fatal also `_end()` (close the transport without a final packet). -/
def rejectPacket (st : ConnState) (p : Packet) (fatal : Bool) :
    ConnState × List Output :=
  if fatal then (st, [.packetRejected p, .ended none])
  else (st, [.packetRejected p])

/-- Embeds `Connection.prototype.callMethod`: create a call packet, register
the callback (or the `_emitError` default) under the outgoing packet id, and
send the packet. -/
def callMethod (st : ConnState) (interfaceName methodName : String) (args : JSValue)
    (cb : Option Nat) : ConnState × List Output :=
  let pr := createPacket st "call" (some interfaceName) (some (methodName, args))
  let k : Continuation := match cb with
    | some n => .user n
    | none => .emitError
  ({ pr.2 with callbacks := cbSet pr.2.callbacks pr.1.pid k }, [.sent pr.1])

/-- Embeds `Connection.prototype.callback` (sending a callback packet): build
an `error` or `ok` callback packet with `createPacket` (which advances the id
counter), then overwrite its header id with the id of the call being answered
(`packet.callback[0] = packetId`), and send it. -/
def callbackOp (st : ConnState) (pid : Int) (r : CbResult) : ConnState × List Output :=
  match r with
  | .err e =>
      let pr := createPacket st "callback" none (some ("error", errJstpArray e))
      (pr.2, [.sent { pr.1 with pid := pid }])
  | .res results =>
      let pr := createPacket st "callback" none (some ("ok", .varr results))
      (pr.2, [.sent { pr.1 with pid := pid }])

/-- Embeds `Connection.prototype.handshake`: build the handshake packet (with
the `login` verb and credentials when login and password are given), register
the handshake closure under the outgoing packet id, and send. -/
def handshakeOp (st : ConnState) (appName : String) (login password : Option String)
    (cb : Option Nat) : ConnState × List Output :=
  let pr :=
    match login, password with
    | some l, some pw =>
        createPacket st "handshake" (some appName)
          (some ("login", .varr [.vstr l, .vstr pw]))
    | _, _ => createPacket st "handshake" (some appName) none
  ({ pr.2 with callbacks := cbSet pr.2.callbacks pr.1.pid (.handshakeK login password cb) },
   [.sent pr.1])

/-- Embeds `Connection.prototype.inspectInterface`: build an inspect packet,
register the inspect closure under the outgoing packet id, and send.  Note
the cache `this.remoteProxies` is not consulted. -/
def inspectInterface (st : ConnState) (interfaceName : String) (cb : Option Nat) :
    ConnState × List Output :=
  let pr := createPacket st "inspect" (some interfaceName) none
  ({ pr.2 with callbacks := cbSet pr.2.callbacks pr.1.pid (.inspectK interfaceName cb) },
   [.sent pr.1])

/-- Embeds `Connection.prototype.ping`: build a ping packet, register the
callback (or `common.doNothing`) under the outgoing packet id, and send. -/
def ping (st : ConnState) (cb : Option Nat) : ConnState × List Output :=
  let pr := createPacket st "ping" none none
  let k : Continuation := match cb with
    | some n => .user n
    | none => .doNothing
  ({ pr.2 with callbacks := cbSet pr.2.callbacks pr.1.pid k }, [.sent pr.1])

/-- Embeds `Connection.prototype.pong`: send `{pong: [packetId]}` echoing the
given id directly (no `createPacket`, so the id counter does not move). -/
def pongOp (st : ConnState) (pid : Int) : ConnState × List Output :=
  (st, [.sent ⟨"pong", pid, none, none⟩])

/-- Embeds `Connection.prototype._onSocketClose`: stop the heartbeat (a timer,
not modelled), emit `close`, and on a server-role connection also the
server's `disconnect`.  The pending-callback registry is not touched. -/
def onSocketClose (st : ConnState) : ConnState × List Output :=
  (st, .closeEvent :: (if st.isServer then [.disconnectEvent] else []))

/-- Embeds `Connection.prototype._handshakeError`: build a handshake `error`
packet carrying the wire form of the error and close the transport with it as
the final packet (`_end(packet)`). -/
def handshakeError (st : ConnState) (e : JErr) : ConnState × List Output :=
  let pr := createPacket st "handshake" none (some ("error", errJstpArray e))
  (pr.2, [.ended (some pr.1)])

/-- Embeds `Connection.prototype._onSessionCreated`: on an authentication
error respond AuthFailed and close; on success set `username`,
`handshakeDone` and `sessionId`, emit the `client` and the server `connect`
events, and send the handshake `ok` packet with the session id. -/
def onSessionCreated (st : ConnState) (result : Option (Option String × JSValue)) :
    ConnState × List Output :=
  match result with
  | none => handshakeError st .authFailed
  | some (username, sessionId) =>
      let st1 := { st with
        username := username, handshakeDone := true, sessionId := some sessionId }
      let pr := createPacket st1 "handshake" none (some ("ok", sessionId))
      (pr.2, [.clientEvent sessionId, .connectEvent, .sent pr.1])

/-- Embeds `Connection.prototype._processHandshakeRequest`: a non-server
connection answers NotAServer; an unknown application answers AppNotFound;
otherwise the application is attached (note: before authentication), the auth
strategy is the packet's verb key (`anonymous` when absent) with its value
as credentials, and `server.startSession` decides the outcome handled by
`_onSessionCreated`. -/
def processHandshakeRequest (env : ServerEnv) (st : ConnState) (p : Packet)
    (appName : String) : ConnState × List Output :=
  if !st.isServer then handshakeError st .notAServer
  else if !(env.applications.contains appName) then handshakeError st .appNotFound
  else
    let st1 := { st with application := some appName }
    let strat := match p.verb with
      | some v => v.1
      | none => "anonymous"
    let creds := match p.verb with
      | some v => v.2
      | none => .vundef
    onSessionCreated st1 (env.startSession appName strat creds)

/-- Embeds `Connection.prototype._processHandshakeResponse`, faithfully
keeping its control flow: when no callback is registered under the packet id
the packet is rejected but processing continues (there is no return); on `ok`
the registry entry is deleted, `handshakeDone` is set, the client application
is attached, and the callback is invoked with the session id (`calledUndefined`
marks the TypeError of invoking the absent callback); on `error` the entry is
deleted and the callback invoked with the remote error; any other shape is
rejected fatally. -/
def processHandshakeResponse (st : ConnState) (p : Packet) : ConnState × List Output :=
  let cb := cbGet st.callbacks p.pid
  let rejOuts : List Output :=
    match cb with
    | none => [.packetRejected p]
    | some _ => []
  match p.verb with
  | some ("ok", sess) =>
      let st1 := { st with
        callbacks := cbDel st.callbacks p.pid,
        handshakeDone := true,
        application := st.clientApplication }
      match cb with
      | some k =>
          let r1 := invokeWithTrace st1 k (.res [sess])
          (r1.1, rejOuts ++ r1.2)
      | none => (st1, rejOuts ++ [.calledUndefined])
  | some ("error", earr) =>
      let st1 := { st with callbacks := cbDel st.callbacks p.pid }
      match cb with
      | some k =>
          let r1 := invokeWithTrace st1 k (.err (.remote earr))
          (r1.1, rejOuts ++ r1.2)
      | none => (st1, rejOuts ++ [.calledUndefined])
  | _ =>
      let r1 := rejectPacket st p true
      (r1.1, rejOuts ++ r1.2)

/-- Embeds `Connection.prototype._processHandshakePacket`: fatal rejection
when the handshake is already done; otherwise a packet with an application
name in the header is a request, one without is a response. -/
def processHandshakePacket (env : ServerEnv) (st : ConnState) (p : Packet) :
    ConnState × List Output :=
  if st.handshakeDone then rejectPacket st p true
  else
    match p.target with
    | some appName => processHandshakeRequest env st p appName
    | none => processHandshakeResponse st p

/-- A JS spread `...value` of a callback result payload: an array spreads to
its elements (the only shape this protocol sends). -/
def spreadArgs : JSValue → List JSValue
  | .varr xs => xs
  | v => [v]

/-- Embeds `Connection.prototype._processCallPacket`: missing arguments value
answers InvalidSignature through the remote-callback wrapper; otherwise the
application handler's outcome (supplied by the environment, see `ServerEnv`)
is sent back the same way.  The wrapper and `Connection.prototype.callback`
are `callbackOp`. -/
def processCallPacket (env : ServerEnv) (st : ConnState) (p : Packet) :
    ConnState × List Output :=
  match p.verb with
  | none => callbackOp st p.pid (.err .invalidSignature)
  | some (m, args) => callbackOp st p.pid (env.callMethodR st.application p.target m args)

/-- Embeds `Connection.prototype._processCallbackPacket`, faithfully keeping
its control flow: with a registered callback the entry is deleted first; on
`ok` or `error` the callback is invoked with the payload; otherwise (neither
`ok` nor `error`, entry already deleted) and also when no callback was
registered, the packet is rejected non-fatally. -/
def processCallbackPacket (st : ConnState) (p : Packet) : ConnState × List Output :=
  match cbGet st.callbacks p.pid with
  | some k =>
      let st1 := { st with callbacks := cbDel st.callbacks p.pid }
      match p.verb with
      | some ("ok", v) => invokeWithTrace st1 k (.res (spreadArgs v))
      | some ("error", earr) => invokeWithTrace st1 k (.err (.remote earr))
      | _ => (st1, [.packetRejected p])
  | none => (st, [.packetRejected p])

/-- Embeds `Connection.prototype._processEventPacket`: emit the connection
`event`, and re-emit locally on the cached remote proxy of the interface when
one exists. -/
def processEventPacket (st : ConnState) (p : Packet) : ConnState × List Output :=
  let evName := p.verb.map (fun v => v.1)
  let args : JSValue :=
    match p.verb with
    | some v => v.2
    | none => .vundef
  let proxyOuts : List Output :=
    match p.target with
    | some ifc =>
        match st.remoteProxies.find? (fun e => e.1 == ifc) with
        | some e => [.proxyEvent e.2.nonce evName args]
        | none => []
    | none => []
  (st, .eventEvent p.target evName args :: proxyOuts)

/-- Embeds `Connection.prototype._processInspectPacket`: answer with the
method list of the interface, or with InterfaceNotFound. -/
def processInspectPacket (env : ServerEnv) (st : ConnState) (p : Packet) :
    ConnState × List Output :=
  match env.getMethods st.application p.target with
  | some methods => callbackOp st p.pid (.res [.varr (methods.map .vstr)])
  | none => callbackOp st p.pid (.err .interfaceNotFound)

/-- Embeds `Connection.prototype._processPingPacket`: reply with a pong
carrying the same id. -/
def processPingPacket (st : ConnState) (p : Packet) : ConnState × List Output :=
  pongOp st p.pid

/-- Embeds `Connection.prototype._processPongPacket`: with a registered
callback, delete the entry and invoke it with no arguments; otherwise do
nothing. -/
def processPongPacket (st : ConnState) (p : Packet) : ConnState × List Output :=
  match cbGet st.callbacks p.pid with
  | some k => invokeWithTrace { st with callbacks := cbDel st.callbacks p.pid } k (.res [])
  | none => (st, [])

/-- Embeds `Connection.prototype._processPacket`: the empty packet is a
silent heartbeat; before the handshake any non-handshake packet is rejected
fatally; otherwise dispatch through the `PACKET_HANDLERS` table, rejecting
unknown kinds non-fatally. -/
def processPacket (env : ServerEnv) (st : ConnState) (ip : InPacket) :
    ConnState × List Output :=
  match ip with
  | .empty => (st, [])
  | .pkt p =>
      if st.handshakeDone = false ∧ p.kind ≠ "handshake" then rejectPacket st p true
      else
        match p.kind with
        | "handshake" => processHandshakePacket env st p
        | "call" => processCallPacket env st p
        | "callback" => processCallbackPacket st p
        | "event" => processEventPacket st p
        | "inspect" => processInspectPacket env st p
        | "ping" => processPingPacket st p
        | "pong" => processPongPacket st p
        | _ => rejectPacket st p false

/-- An environment with no applications, used for client-side runs. -/
def env0 : ServerEnv :=
  { applications := []
  , startSession := fun _ _ _ => none
  , callMethodR := fun _ _ _ _ => .err .internalApiError
  , getMethods := fun _ _ => none }

/-- The connection state after `n` successive `createPacket` calls (the kind
and target of a packet do not affect the id counter). -/
def stateAfterPackets (st : ConnState) : Nat → ConnState
  | 0 => st
  | n + 1 => (createPacket (stateAfterPackets st n) "ping" none none).2

/-- The packet id that the `n`-th (0-based) `createPacket` call of a freshly
constructed connection of the given role assigns. -/
def assignedId (isServer : Bool) (n : Nat) : Int :=
  (stateAfterPackets (mkConnection isServer none) n).nextPacketId

/-- Boolean observer distinguishing the `null` value. -/
def isNull : JSValue → Bool
  | .vnull => true
  | _ => false

/-- Server environment whose authentication always fails, with one
application `calc` registered. -/
def envC6 : ServerEnv :=
  { applications := ["calc"]
  , startSession := fun _ _ _ => none
  , callMethodR := fun _ _ _ _ => .err .internalApiError
  , getMethods := fun _ _ => none }

/-- A client connection that has completed its handshake and then registered
a ping continuation (user callback 7) under packet id 0. -/
def c1st : ConnState :=
  (ping { mkConnection false (some "jstp") with handshakeDone := true } (some 7)).1

/-- The callback packet `{callback: [0], foo: []}`: it carries neither `ok`
nor `error`. -/
def c1pkt : Packet := ⟨"callback", 0, none, some ("foo", .varr [])⟩

/-- A client connection that has completed its handshake (base state of the
inspect scenario). -/
def c7st0 : ConnState := { mkConnection false (some "jstp") with handshakeDone := true }

/-- State after the first `inspectInterface` call for `calc` (user callback
1); the inspect packet went out under id 0. -/
def c7s1 : ConnState := (inspectInterface c7st0 "calc" (some 1)).1

/-- State after the first successful inspect response delivered the method
list: the first `RemoteProxy` (nonce 0) is cached. -/
def c7s2 : ConnState :=
  (processPacket env0 c7s1 (.pkt ⟨"callback", 0, none, some ("ok", .varr [.vstr "add"])⟩)).1

/-- State after the second `inspectInterface` call for the same interface
(user callback 2); a second inspect packet went out under id 1. -/
def c7s3 : ConnState := (inspectInterface c7s2 "calc" (some 2)).1

/-- A client connection that has completed the handshake and sent a ping with
user callback 3 (registered under packet id 0). -/
def c8st1 : ConnState :=
  (ping { mkConnection false (some "jstp") with handshakeDone := true } (some 3)).1

/-- State after the matching pong was processed: the ping continuation has
been consumed. -/
def c8st2 : ConnState :=
  (processPacket env0 c8st1 (.pkt ⟨"pong", 0, none, none⟩)).1

/-!
Helper lemmas: preservation facts about the step function and the callback
registry, used by the claim theorems below.
-/

theorem invokeCont_handshakeDone (st : ConnState) (k : Continuation) (r : CbResult) :
    (invokeCont st k r).1.handshakeDone = st.handshakeDone := by
  cases k <;> cases r <;> rfl

theorem invokeCont_callbacks (st : ConnState) (k : Continuation) (r : CbResult) :
    (invokeCont st k r).1.callbacks = st.callbacks := by
  cases k <;> cases r <;> rfl

theorem invokeWithTrace_handshakeDone (st : ConnState) (k : Continuation) (r : CbResult) :
    (invokeWithTrace st k r).1.handshakeDone = st.handshakeDone :=
  invokeCont_handshakeDone st k r

theorem invokeWithTrace_callbacks (st : ConnState) (k : Continuation) (r : CbResult) :
    (invokeWithTrace st k r).1.callbacks = st.callbacks :=
  invokeCont_callbacks st k r

theorem callbackOp_handshakeDone (st : ConnState) (pid : Int) (r : CbResult) :
    (callbackOp st pid r).1.handshakeDone = st.handshakeDone := by
  cases r <;> rfl

theorem processCallbackPacket_handshakeDone (st : ConnState) (p : Packet) :
    (processCallbackPacket st p).1.handshakeDone = st.handshakeDone := by
  unfold processCallbackPacket
  split
  · split
    · rw [invokeWithTrace_handshakeDone]
    · rw [invokeWithTrace_handshakeDone]
    · rfl
  · rfl

theorem processPongPacket_handshakeDone (st : ConnState) (p : Packet) :
    (processPongPacket st p).1.handshakeDone = st.handshakeDone := by
  unfold processPongPacket
  split
  · rw [invokeWithTrace_handshakeDone]
  · rfl

theorem rejectPacket_fst (st : ConnState) (p : Packet) (fatal : Bool) :
    (rejectPacket st p fatal).1 = st := by
  unfold rejectPacket
  split <;> rfl

theorem processHandshakePacket_done (env : ServerEnv) (st : ConnState) (p : Packet)
    (h : st.handshakeDone = true) :
    processHandshakePacket env st p = rejectPacket st p true := by
  unfold processHandshakePacket
  rw [h]
  simp

theorem cbGet_cbDel (cbs : List (Int × Continuation)) (i : Int) :
    cbGet (cbDel cbs i) i = none := by
  unfold cbGet cbDel
  rw [List.find?_eq_none.mpr]
  intro x hx
  have hmem := (List.mem_filter.mp hx).2
  simp only [bne_iff_ne, ne_eq, decide_eq_true_eq] at hmem
  simpa using hmem

theorem processPacket_handshakeDone_mono (env : ServerEnv) (st : ConnState) (ip : InPacket)
    (h : st.handshakeDone = true) :
    (processPacket env st ip).1.handshakeDone = true := by
  cases ip with
  | empty => exact h
  | pkt p =>
      show (processPacket env st (.pkt p)).1.handshakeDone = true
      simp only [processPacket]
      rw [if_neg (by simp [h])]
      split
      · rw [processHandshakePacket_done env st p h, rejectPacket_fst]; exact h
      · unfold processCallPacket
        split
        · rw [callbackOp_handshakeDone]; exact h
        · rw [callbackOp_handshakeDone]; exact h
      · rw [processCallbackPacket_handshakeDone]; exact h
      · exact h
      · unfold processInspectPacket
        split
        · rw [callbackOp_handshakeDone]; exact h
        · rw [callbackOp_handshakeDone]; exact h
      · exact h
      · rw [processPongPacket_handshakeDone]; exact h
      · rw [rejectPacket_fst]; exact h

theorem stateAfterPackets_delta (st : ConnState) (n : Nat) :
    (stateAfterPackets st n).packetIdDelta = st.packetIdDelta := by
  induction n with
  | zero => rfl
  | succ n ih => simp [stateAfterPackets, createPacket, ih]

theorem stateAfterPackets_nextId (st : ConnState) (n : Nat) :
    (stateAfterPackets st n).nextPacketId = st.nextPacketId + n * st.packetIdDelta := by
  induction n with
  | zero => simp [stateAfterPackets]
  | succ n ih =>
      simp only [stateAfterPackets, createPacket, ih, stateAfterPackets_delta]
      push_cast
      ring

/-!
Claim theorems.
-/

/-- C1: the claim states that every registered continuation is invoked
exactly once (on response or with a ConnectionClosed error on close) and is
never dropped uninvoked.  The code violates this: after a ping registers the
continuation `user 7` under packet id 0, an incoming callback packet carrying
neither `ok` nor `error` deletes the registry entry and only rejects the
packet, never invoking the continuation; and `_onSocketClose` leaves the
registry untouched and invokes nothing, so a pending continuation is silently
dropped when the connection closes. -/
theorem C1_dropped_continuation_eval :
    c1st.callbacks = [(0, .user 7)]
    ∧ processPacket env0 c1st (.pkt c1pkt)
        = ({ c1st with callbacks := [] }, [.packetRejected c1pkt])
    ∧ onSocketClose c1st = (c1st, [.closeEvent]) :=
  ⟨rfl, rfl, rfl⟩

/-- C2: the claim states that a handshake response without a registered
callback is rejected with no further dispatch and no change to
`handshakeDone` or `application`.  The code violates this: on the fresh
client connection (no callback registered, `handshakeDone` false,
`application` null), the response `{handshake: [0], ok: 'sess'}` is rejected
but processing continues, setting `handshakeDone` to true, attaching the
client application, and invoking the absent callback (a TypeError, recorded
as `calledUndefined`). -/
theorem C2_handshake_response_no_callback_eval :
    (mkConnection false (some "jstp")).handshakeDone = false
    ∧ (mkConnection false (some "jstp")).application = none
    ∧ processPacket env0 (mkConnection false (some "jstp"))
        (.pkt ⟨"handshake", 0, none, some ("ok", .vstr "sess")⟩)
      = ({ mkConnection false (some "jstp") with
             handshakeDone := true,
             application := some "jstp" },
         [.packetRejected ⟨"handshake", 0, none, some ("ok", .vstr "sess")⟩,
          .calledUndefined]) :=
  ⟨rfl, rfl, rfl⟩

/-- C3: `handshakeDone` never transitions back from true (hence it becomes
true at most once); every non-empty packet whose kind is not `handshake`
received while `handshakeDone` is false is rejected with `packetRejected`
and a fatal close; and every `handshake` packet received while
`handshakeDone` is true is rejected with `packetRejected` and a fatal
close. -/
theorem C3_handshake_invariant (env : ServerEnv) (st : ConnState) (ip : InPacket)
    (p : Packet) :
    (st.handshakeDone = true → (processPacket env st ip).1.handshakeDone = true)
    ∧ (st.handshakeDone = false → p.kind ≠ "handshake" →
        processPacket env st (.pkt p) = (st, [.packetRejected p, .ended none]))
    ∧ (st.handshakeDone = true → p.kind = "handshake" →
        processPacket env st (.pkt p) = (st, [.packetRejected p, .ended none])) := by
  refine ⟨processPacket_handshakeDone_mono env st ip, ?_, ?_⟩
  · intro hd hk
    simp only [processPacket]
    rw [if_pos ⟨hd, hk⟩]
    simp [rejectPacket]
  · intro hd hk
    obtain ⟨kind, pid, target, verb⟩ := p
    simp only at hk
    subst hk
    have h1 : processPacket env st (.pkt ⟨"handshake", pid, target, verb⟩)
        = processHandshakePacket env st ⟨"handshake", pid, target, verb⟩ := by
      simp only [processPacket]
      rw [if_neg (by simp [hd])]
    rw [h1, processHandshakePacket_done env st _ hd]
    simp [rejectPacket]

/-- C3 witness: a fresh server connection (handshake not done) fatally
rejects a premature call packet. -/
theorem C3_handshake_invariant_witness :
    processPacket env0 (mkConnection true none)
      (.pkt ⟨"call", 7, some "x", some ("f", .varr [])⟩)
      = (mkConnection true none,
         [.packetRejected ⟨"call", 7, some "x", some ("f", .varr [])⟩, .ended none]) :=
  (C3_handshake_invariant env0 (mkConnection true none)
      (.pkt ⟨"call", 7, some "x", some ("f", .varr [])⟩)
      ⟨"call", 7, some "x", some ("f", .varr [])⟩).2.1 rfl (by decide)

/-- C4: the packet ids assigned by successive `createPacket` calls start at 0
on both roles; on a client-role connection the n-th id is n (non-negative,
non-decreasing: 0, 1, 2, ...), on a server-role connection it is -n
(non-positive, non-increasing: 0, -1, -2, ...); and a client id can coincide
with a server id only at 0, so a nonzero id's sign identifies the
originator. -/
theorem C4_packet_ids (m n : Nat) :
    assignedId false 0 = 0
    ∧ assignedId true 0 = 0
    ∧ assignedId false n = (n : Int)
    ∧ assignedId true n = -(n : Int)
    ∧ assignedId false n ≤ assignedId false (n + 1)
    ∧ assignedId true (n + 1) ≤ assignedId true n
    ∧ 0 ≤ assignedId false n
    ∧ assignedId true n ≤ 0
    ∧ (assignedId false m = assignedId true n → assignedId false m = 0) := by
  have hc : ∀ k : Nat, assignedId false k = (k : Int) := fun k => by
    simp [assignedId, stateAfterPackets_nextId, mkConnection]
  have hs : ∀ k : Nat, assignedId true k = -(k : Int) := fun k => by
    simp [assignedId, stateAfterPackets_nextId, mkConnection]
  refine ⟨hc 0, by simpa using hs 0, hc n, hs n, ?_, ?_, ?_, ?_, ?_⟩
  · rw [hc n, hc (n + 1)]; push_cast; omega
  · rw [hs n, hs (n + 1)]; push_cast; omega
  · rw [hc n]; positivity
  · rw [hs n]; omega
  · intro hEq
    rw [hc m, hs n] at hEq
    rw [hc m]
    omega

/-- C4 witness: the first id of either role is 0, and the two id streams
coincide there. -/
theorem C4_packet_ids_witness : assignedId false 0 = 0 :=
  (C4_packet_ids 0 0).2.2.2.2.2.2.2.2 rfl

/-- C5: the claim states that every value produced by `stringify` parses
back to the same value, strings being escaped for backslash and single
quote.  The code violates this: the serializer escapes only single quotes,
so the one-character string consisting of a backslash serializes to the
three characters quote-backslash-quote, in which the backslash escapes the
closing quote, leaving an unterminated string literal that does not parse. -/
theorem C5_backslash_string_eval :
    stringify (JSValue.vstr (String.mk [bslash])) = String.mk [squote, bslash, squote]
    ∧ parseRecord (String.mk [squote, bslash, squote]) = none :=
  ⟨rfl, rfl⟩

/-- C6: the claim states that a handshake request whose authentication fails
leaves the connection state unchanged apart from closing, the application
being attached only on auth success.  The code violates this: the
application is attached as soon as it is resolved, before authentication, so
after a failed authentication the connection's `application` field has
changed from null to the requested application (and the id counter advanced
for the error packet). -/
theorem C6_auth_failure_state_change :
    (mkConnection true none).application = none
    ∧ processPacket envC6 (mkConnection true none)
        (.pkt ⟨"handshake", 0, some "calc", some ("login", .varr [.vstr "u", .vstr "p"])⟩)
      = ({ mkConnection true none with application := some "calc", nextPacketId := -1 },
         [.ended (some ⟨"handshake", 0, none, some ("error", .varr [.vint 2])⟩)]) :=
  ⟨rfl, rfl⟩

/-- C6 amended: processing a handshake request on a server connection whose
application is registered attaches the application before authentication (so
it stays attached even on failure); on auth failure the server responds with
the handshake error AuthFailed (code 2) and closes, with `handshakeDone`,
`username` and `sessionId` unchanged; only on auth success does it set
`username`, `handshakeDone` and `sessionId`, emit the `client` and `connect`
events, and send the handshake ok packet with the session id. -/
theorem C6_handshake_request_behavior (env : ServerEnv) (st : ConnState) (pid : Int)
    (appName strat : String) (creds : JSValue)
    (hs : st.isServer = true) (hd : st.handshakeDone = false)
    (ha : env.applications.contains appName = true) :
    (env.startSession appName strat creds = none →
      processPacket env st (.pkt ⟨"handshake", pid, some appName, some (strat, creds)⟩)
        = ({ st with
               application := some appName,
               nextPacketId := st.nextPacketId + st.packetIdDelta },
           [.ended (some ⟨"handshake", st.nextPacketId, none,
                          some ("error", .varr [.vint 2])⟩)]))
    ∧ (∀ u sess, env.startSession appName strat creds = some (u, sess) →
      processPacket env st (.pkt ⟨"handshake", pid, some appName, some (strat, creds)⟩)
        = ({ st with
               application := some appName,
               username := u,
               handshakeDone := true,
               sessionId := some sess,
               nextPacketId := st.nextPacketId + st.packetIdDelta },
           [.clientEvent sess, .connectEvent,
            .sent ⟨"handshake", st.nextPacketId, none, some ("ok", sess)⟩])) := by
  have hmem : appName ∈ env.applications := by simpa using ha
  constructor
  · intro hn
    simp [processPacket, hd, processHandshakePacket, processHandshakeRequest, hs, ha, hmem,
          onSessionCreated, hn, handshakeError, createPacket, errJstpArray, errCode]
  · intro u sess hsome
    simp [processPacket, hd, processHandshakePacket, processHandshakeRequest, hs, ha, hmem,
          onSessionCreated, hsome, createPacket]

/-- C6 witness: the auth-failure branch of the amended claim at the concrete
failing environment. -/
theorem C6_handshake_request_behavior_witness :
    processPacket envC6 (mkConnection true none)
      (.pkt ⟨"handshake", 0, some "calc", some ("login", .varr [.vstr "u", .vstr "p"])⟩)
      = ({ mkConnection true none with
             application := some "calc",
             nextPacketId := (mkConnection true none).nextPacketId
               + (mkConnection true none).packetIdDelta },
         [.ended (some ⟨"handshake", (mkConnection true none).nextPacketId, none,
                        some ("error", .varr [.vint 2])⟩)]) :=
  (C6_handshake_request_behavior envC6 (mkConnection true none) 0 "calc" "login"
      (.varr [.vstr "u", .vstr "p"]) rfl rfl rfl).1 rfl

/-- C7: the claim states that a subsequent `inspectInterface` call for an
already inspected interface returns the same cached proxy object.  The code
violates this: a second `inspectInterface("calc")` sends a fresh inspect
packet (id 1) instead of returning the cached proxy, and on its response it
constructs a new `RemoteProxy` (identity nonce 1, distinct from the cached
proxy's nonce 0) which it hands to the callback and stores over the cache
entry. -/
theorem C7_inspect_returns_fresh_proxy :
    (inspectInterface c7s2 "calc" (some 2)).2 = [.sent ⟨"inspect", 1, some "calc", none⟩]
    ∧ c7s2.remoteProxies = [("calc", ⟨0, "calc", [.vstr "add"]⟩)]
    ∧ processPacket env0 c7s3 (.pkt ⟨"callback", 1, none, some ("ok", .varr [.vstr "add"])⟩)
        = ({ c7s3 with
               callbacks := [],
               remoteProxies := [("calc", ⟨1, "calc", [.vstr "add"]⟩)],
               proxyNonce := 2 },
           [.invoked (.inspectK "calc" (some 2)) (.res [.vstr "add"]),
            .userCb 2 (.proxyResult ⟨1, "calc", [.vstr "add"]⟩)])
    ∧ ((1 : Nat) == 0) = false :=
  ⟨rfl, rfl, rfl, rfl⟩

/-- C7 amended: `inspectInterface` always sends an inspect packet and
registers the inspect continuation (the proxy cache is not consulted); every
successful inspect response constructs a fresh `RemoteProxy` (nonce equal to
the current proxy counter) over the returned method list, stores it in
`remoteProxies` under the interface name overwriting any previous entry, and
hands it to the user callback; a repeated inspect therefore yields a new
proxy object rather than the cached one. -/
theorem C7_inspect_behavior (env : ServerEnv) (st : ConnState) (ifc : String)
    (cb : Option Nat) (pid : Int) (n : Nat) (methods : List JSValue) :
    (inspectInterface st ifc cb).2 = [.sent ⟨"inspect", st.nextPacketId, some ifc, none⟩]
    ∧ (inspectInterface st ifc cb).1.callbacks
        = cbSet st.callbacks st.nextPacketId (.inspectK ifc cb)
    ∧ (st.handshakeDone = true → cbGet st.callbacks pid = some (.inspectK ifc (some n)) →
        processPacket env st (.pkt ⟨"callback", pid, none, some ("ok", .varr methods)⟩)
          = ({ st with
                 callbacks := cbDel st.callbacks pid,
                 remoteProxies := (ifc, ⟨st.proxyNonce, ifc, methods⟩)
                   :: st.remoteProxies.filter (fun e => e.1 != ifc),
                 proxyNonce := st.proxyNonce + 1 },
             [.invoked (.inspectK ifc (some n)) (.res methods),
              .userCb n (.proxyResult ⟨st.proxyNonce, ifc, methods⟩)])) := by
  refine ⟨rfl, rfl, ?_⟩
  intro hd hcb
  simp [processPacket, hd, processCallbackPacket, hcb, invokeWithTrace, invokeCont,
        spreadArgs]

/-- C7 witness: the response to the first inspect call constructs and caches
the proxy with nonce 0 and delivers it to user callback 1. -/
theorem C7_inspect_behavior_witness :
    processPacket env0 c7s1 (.pkt ⟨"callback", 0, none, some ("ok", .varr [.vstr "add"])⟩)
      = ({ c7s1 with
             callbacks := cbDel c7s1.callbacks 0,
             remoteProxies := ("calc", ⟨c7s1.proxyNonce, "calc", [.vstr "add"]⟩)
               :: c7s1.remoteProxies.filter (fun e => e.1 != "calc"),
             proxyNonce := c7s1.proxyNonce + 1 },
         [.invoked (.inspectK "calc" (some 1)) (.res [.vstr "add"]),
          .userCb 1 (.proxyResult ⟨c7s1.proxyNonce, "calc", [.vstr "add"]⟩)]) :=
  (C7_inspect_behavior env0 c7s1 "calc" (some 1) 0 1 [.vstr "add"]).2.2 rfl rfl

/-- C8: after the handshake, an incoming ping with id n is answered by a pong
with the same id n and no other effect; a pong whose id matches a registered
continuation invokes it exactly once (recorded in the trace) and removes the
registry entry, so that a duplicate pong with the same id finds no entry; and
a pong with no registered entry changes nothing and produces no output. -/
theorem C8_ping_pong (env : ServerEnv) (st : ConnState) (pid : Int) (k : Continuation) :
    (st.handshakeDone = true →
      processPacket env st (.pkt ⟨"ping", pid, none, none⟩)
        = (st, [.sent ⟨"pong", pid, none, none⟩]))
    ∧ (st.handshakeDone = true → cbGet st.callbacks pid = some k →
        processPacket env st (.pkt ⟨"pong", pid, none, none⟩)
          = ((invokeCont { st with callbacks := cbDel st.callbacks pid } k (.res [])).1,
             .invoked k (.res [])
               :: (invokeCont { st with callbacks := cbDel st.callbacks pid } k (.res [])).2)
        ∧ (processPacket env st (.pkt ⟨"pong", pid, none, none⟩)).1.callbacks
            = cbDel st.callbacks pid
        ∧ cbGet (processPacket env st (.pkt ⟨"pong", pid, none, none⟩)).1.callbacks pid
            = none)
    ∧ (st.handshakeDone = true → cbGet st.callbacks pid = none →
        processPacket env st (.pkt ⟨"pong", pid, none, none⟩) = (st, [])) := by
  refine ⟨?_, ?_, ?_⟩
  · intro hd
    simp [processPacket, hd, processPingPacket, pongOp]
  · intro hd hcb
    have hstep : processPacket env st (.pkt ⟨"pong", pid, none, none⟩)
        = invokeWithTrace { st with callbacks := cbDel st.callbacks pid } k (.res []) := by
      simp [processPacket, hd, processPongPacket, hcb]
    refine ⟨?_, ?_, ?_⟩
    · rw [hstep]; rfl
    · rw [hstep, invokeWithTrace_callbacks]
    · rw [hstep, invokeWithTrace_callbacks]
      exact cbGet_cbDel st.callbacks pid
  · intro hd hcb
    simp [processPacket, hd, processPongPacket, hcb]

/-- C8 witness: the concrete ping/pong round trip with a duplicate pong: the
ping with id 4 is answered by pong 4; the first pong for the registered id 0
invokes user callback 3 and empties the registry; the duplicate pong is a
no-op. -/
theorem C8_ping_pong_witness :
    processPacket env0 c8st1 (.pkt ⟨"ping", 4, none, none⟩)
      = (c8st1, [.sent ⟨"pong", 4, none, none⟩])
    ∧ (processPacket env0 c8st1 (.pkt ⟨"pong", 0, none, none⟩)).1.callbacks = []
    ∧ processPacket env0 c8st2 (.pkt ⟨"pong", 0, none, none⟩) = (c8st2, []) := by
  have h1 := (C8_ping_pong env0 c8st1 4 (.user 3)).1 rfl
  have h2 := (C8_ping_pong env0 c8st1 0 (.user 3)).2.1 rfl rfl
  have h3 := (C8_ping_pong env0 c8st2 0 (.user 3)).2.2 rfl rfl
  exact ⟨h1, by rw [h2.2.1]; rfl, h3⟩

/-- C9: the empty packet (heartbeat) is a silent no-op in every connection
state: the state is unchanged and no packet, event, callback invocation or
close is produced. -/
theorem C9_heartbeat_silent (env : ServerEnv) (st : ConnState) :
    processPacket env st InPacket.empty = (st, []) :=
  rfl

/-- C10: in record mode, `stringify` renders null values and function values
as the text `undefined`; consequently an object field whose value is null or
a function is omitted from the output entirely, a top-level null stringifies
to `undefined` rather than `null`, and parsing that text yields the
`undefined` value, not null, so null does not survive a round trip. -/
theorem C10_null_function_serialization (k : String) (fs : List (String × JSValue))
    (n : Nat) :
    stringify JSValue.vnull = "undefined"
    ∧ stringify (JSValue.vfunc n) = "undefined"
    ∧ stringify (.vobj ((k, JSValue.vnull) :: fs)) = stringify (.vobj fs)
    ∧ stringify (.vobj ((k, JSValue.vfunc n) :: fs)) = stringify (.vobj fs)
    ∧ parseRecord (stringify JSValue.vnull) = some JSValue.vundef
    ∧ Option.map isNull (parseRecord (stringify JSValue.vnull)) = some false := by
  refine ⟨rfl, rfl, ?_, ?_, rfl, rfl⟩
  · simp [stringify, serialize, serializeFields]
  · simp [stringify, serialize, serializeFields]

end Jstp
